import Mathlib

/-!
Verification of the job identity-resolution, routing and queuing engine of
electron-hiprint (src/main.js, src/unnamed/part_000) against its
natural-language specification.

The JavaScript source is shallowly embedded: every routing handler becomes a
pure Lean function over explicit state (the printer directory cache, the
fragment mapping, the done-callback map), JS objects keyed by strings become
association lists in insertion order, JS timestamps become naturals, and a
field that JS may leave undefined becomes an Option or the empty string
(matching JS truthiness at every use site).
-/

namespace HiPrint

/-- Scans a character list for the first occurrence of the two-character
separator of a bracketed origin tag and returns the remainder after it.
Mirrors the JS idiom used throughout src/main.js:
if the name includes the separator, take the substring starting two
characters past its first index, else keep the name. -/
def stripTagAux : List Char → Option (List Char)
  | [] => none
  | c :: rest =>
    if c = ']' ∧ rest.head? = some ' ' then some rest.tail
    else stripTagAux rest

/-- JS: if printerName.includes the origin separator, substring past the first
occurrence, else the name unchanged (src/main.js lines 1047-1051, 1517-1520,
1556-1559 and analogous sites). -/
def stripOriginTag (s : String) : String :=
  match stripTagAux s.data with
  | some r => String.mk r
  | none => s

/-- Cache value stored in global.TRANSIT_PRINTERS_CACHE (src/main.js
lines 2159-2171): the owning node id and the raw printer name. The other
stored fields (displayName, server) do not influence routing. -/
structure PrinterInfo where
  clientId : String
  originalName : String
deriving DecidableEq, Repr

/-- The printer directory cache global.TRANSIT_PRINTERS_CACHE: a JS object
keyed by display name, modelled as an association list in insertion order. -/
abbrev PrinterCache := List (String × PrinterInfo)

/-- queryPrinterCache (src/main.js lines 1025-1071): direct display-name
lookup; then, when the target is at least 15 characters, a scan for a
matching clientId; then a scan matching originalName or the origin-stripped
display name against the origin-stripped target. An absent cache object and
an empty cache both return null in JS, so the empty list covers both. -/
def queryPrinterCache (cache : PrinterCache) (printerName : String) :
    Option PrinterInfo :=
  match cache.find? (fun e => e.1 == printerName) with
  | some e => some e.2
  | none =>
    match
      (if printerName ≠ "" ∧ 15 ≤ printerName.length then
        cache.find? (fun e => e.2.clientId == printerName)
      else none) with
    | some e => some e.2
    | none =>
      let cleanName := stripOriginTag printerName
      match cache.find? (fun e =>
          e.2.originalName == cleanName || stripOriginTag e.1 == cleanName) with
      | some e => some e.2
      | none => none

/-- A print job as seen by the server-side news handler: data.printer (the
declared target) and the optional data.replyId correlation token. The other
fields (templateId, html, ...) are carried through unchanged by every branch
and do not influence routing. -/
structure ServeJob where
  printer : String
  replyId : Option String
deriving DecidableEq, Repr

/-- The payload forwarded to the transit relay: the spread of the inbound
data with the client field set to the routing key and the printer field
rewritten (src/main.js lines 1579-1583, 1935-1939, 2024-2028). -/
structure ForwardPayload where
  client : String
  printer : String
  replyId : Option String
deriving DecidableEq, Repr

/-- Observable outcome of one news dispatch.
execLocal records the printer name handed to the print window and the
data.printer value retained on the job for reply correlation;
forwardPeer carries the unmodified job; forwardTransit carries the
forwarded payload; the reject constructors stand for the two error emits. -/
inductive NewsDecision where
  | execLocal (windowPrinter : String) (dataPrinter : String)
  | forwardPeer (data : ServeJob)
  | forwardTransit (fd : ForwardPayload)
  | rejectRemoteNoTransit
  | rejectOffline
deriving DecidableEq, Repr

/-- socket.on news of initServeEvent (src/main.js lines 1506-1606).
Arguments: localId = global.LOCAL_CLIENT_ID, socketId = the originating
connection's socket.id, defaultPrinter = store defaultPrinter (empty string
when unset, matching the JS fallback), transitConnected = SOCKET_CLIENT
exists and is connected, cache = global.TRANSIT_PRINTERS_CACHE, peerIds =
ids of sockets currently connected to the local listener.

Branch structure mirrors the source:
1. isLocalClientId (looksLikeClientId and target = LOCAL_CLIENT_ID): execute
   locally with the origin-stripped default printer handed to the window,
   data.printer left unmodified (lines 1514-1531);
2. target nonempty, different from the sender and at least 15 characters:
   a cache hit with no transit connection emits an error (lines 1534-1544);
   else a direct peer socket receives the job unmodified (lines 1547-1550);
   else with a transit connection the job is forwarded with client set and
   printer origin-stripped (lines 1552-1585; the inner re-query for a
   non-clientId-looking target is kept although the branch condition makes
   it unreachable, lines 1564-1575); else an offline error (lines 1586-1592);
3. otherwise local execution with data unchanged (lines 1594-1604). -/
def serveNews (localId socketId defaultPrinter : String)
    (transitConnected : Bool) (cache : PrinterCache) (peerIds : List String)
    (data : ServeJob) : NewsDecision :=
  let target := data.printer
  if (target ≠ "" ∧ 15 ≤ target.length) ∧ target = localId then
    NewsDecision.execLocal (stripOriginTag defaultPrinter) data.printer
  else if target ≠ "" ∧ target ≠ socketId ∧ (target ≠ "" ∧ 15 ≤ target.length) then
    if (queryPrinterCache cache data.printer).isSome ∧ transitConnected = false then
      NewsDecision.rejectRemoteNoTransit
    else if target ∈ peerIds then
      NewsDecision.forwardPeer data
    else if transitConnected then
      let actualPrinterName := stripOriginTag data.printer
      let routed :=
        if target ≠ "" ∧ 15 ≤ target.length then (target, actualPrinterName)
        else
          match queryPrinterCache cache data.printer with
          | some info =>
            (info.clientId,
              if info.originalName ≠ "" then info.originalName
              else actualPrinterName)
          | none => (data.printer, actualPrinterName)
      NewsDecision.forwardTransit
        { client := routed.1, printer := routed.2, replyId := data.replyId }
    else
      NewsDecision.rejectOffline
  else
    NewsDecision.execLocal data.printer data.printer

/-- A job as seen by the client-side news handler (connection to the transit
relay): data.client and data.printer may each be absent, which JS treats as
falsy; absence is modelled as the empty string, equivalent at every use
site because each access is truthiness-guarded. -/
structure ClientJob where
  client : String
  printer : String
  replyId : Option String
deriving DecidableEq, Repr

/-- client.on news of initClientEvent (src/main.js lines 1869-2044).
targetClientId = data.client or else data.printer. When data.replyId is
present (a request forwarded by the relay): a target equal to
LOCAL_CLIENT_ID executes locally with the origin-stripped printer handed to
the window (lines 1883-1908); a nonempty target different from the relay
connection's id and at least 15 characters is forwarded back to the relay
(lines 1909-1941, the unreachable non-clientId re-query kept as in the
source); anything else executes locally after restoring printer from client
and stripping the origin tag in place (lines 1942-1967, note this path
mutates data.printer). Without a replyId the same three-way split applies
except that the local-target branch additionally requires the 15-character
heuristic and the fallback branch sends data completely unchanged
(lines 1968-2041). -/
def clientNews (localId clientSockId : String) (cache : PrinterCache)
    (data : ClientJob) : NewsDecision :=
  let target := if data.client ≠ "" then data.client else data.printer
  let restored := if data.client ≠ "" ∧ data.printer = "" then data.client
    else data.printer
  let forward : NewsDecision :=
    let actualPrinterName := stripOriginTag data.printer
    let routed :=
      if target ≠ "" ∧ 15 ≤ target.length then (target, actualPrinterName)
      else
        match queryPrinterCache cache
            (if data.client ≠ "" then data.client else data.printer) with
        | some info =>
          (info.clientId,
            if info.originalName ≠ "" then info.originalName
            else actualPrinterName)
        | none => (target, actualPrinterName)
    NewsDecision.forwardTransit
      { client := routed.1, printer := routed.2, replyId := data.replyId }
  if data.replyId.isSome then
    if target = localId then
      NewsDecision.execLocal (stripOriginTag restored) restored
    else if target ≠ "" ∧ target ≠ clientSockId ∧ (target ≠ "" ∧ 15 ≤ target.length) then
      forward
    else
      NewsDecision.execLocal (stripOriginTag restored) (stripOriginTag restored)
  else
    if (target ≠ "" ∧ 15 ≤ target.length) ∧ target = localId then
      NewsDecision.execLocal (stripOriginTag restored) restored
    else if target ≠ "" ∧ target ≠ clientSockId ∧ (target ≠ "" ∧ 15 ≤ target.length) then
      forward
    else
      NewsDecision.execLocal data.printer data.printer

/-- print-new-test handler, transit branch with a cache hit on a remote
owner (src/unnamed/part_000 lines 600-620): the replyId is generated only
when absent (the enclosing branch at line 577 requires data.clientType to
be transit and data.replyId to be truthy, so the generation guard never
fires), the printer field is rewritten to the origin-stripped originalName
of the cache record (falling back to data.printer), and the client field is
set to the record's clientId. freshId stands for the rid value the guard
would generate. -/
def printNewTestForwardData (freshId : String) (data : ClientJob)
    (cacheResult : PrinterInfo) : ForwardPayload :=
  let replyId := match data.replyId with
    | none => some freshId
    | some r => some r
  let base := if cacheResult.originalName ≠ "" then cacheResult.originalName
    else data.printer
  { client := cacheResult.clientId
    printer := stripOriginTag base
    replyId := replyId }

/-- Whether the first list is an initial segment of the second. -/
def listStarts : List Char → List Char → Bool
  | [], _ => true
  | _ :: _, [] => false
  | p :: ps, c :: cs => p == c && listStarts ps cs

/-- JS String.startsWith on the character level. -/
def strStartsWith (s p : String) : Bool := listStarts p.data s.data

/-- server.on connect of initServeEvent (src/main.js lines 1263-1271):
LOCAL_CLIENT_ID is replaced by the new connection's socket.id only while it
is truthy and still carries the provisional local- placeholder. The unset
global is modelled as the empty string (falsy either way). -/
def connectAdopt (current socketId : String) : String :=
  if current ≠ "" ∧ strStartsWith current "local-" then socketId else current

/-- One entry of a relay printer-list broadcast, reduced to the server
fields read by the LOCAL_CLIENT_ID update (src/main.js lines 2115-2123):
server.ip (empty when absent) and server.clientId (empty when absent). -/
structure BroadcastItem where
  ip : String
  clientId : String
deriving DecidableEq, Repr

/-- client.on printerList of initClientEvent, restricted to its effect on
LOCAL_CLIENT_ID (src/main.js lines 2115-2144): for every broadcast item
whose server.ip is truthy and equals the local ip and whose server.clientId
is truthy, LOCAL_CLIENT_ID is overwritten with that clientId,
unconditionally. Items are processed in list order. -/
def printerListUpdate (localIp : String) (current : String)
    (items : List BroadcastItem) : String :=
  items.foldl
    (fun cur item =>
      if item.ip ≠ "" ∧ item.ip = localIp ∧ item.clientId ≠ "" then
        item.clientId
      else cur)
    current

/-- One entry of global.PRINT_FRAGMENTS_MAPPING (src/main.js
lines 1611-1647): declared chunk count, the sparse JS fragments array
(holes and undefined slots modelled as none), the arrival counter and the
last-update timestamp. -/
structure FragmentInfo where
  total : Nat
  fragments : List (Option String)
  count : Nat
  updateTime : Nat
deriving DecidableEq, Repr

/-- global.PRINT_FRAGMENTS_MAPPING as an association list in insertion
order. -/
abbrev FragMap := List (String × FragmentInfo)

/-- Lookup by task id (JS object keys are unique, so first match
suffices). -/
def fragGet : FragMap → String → Option FragmentInfo
  | [], _ => none
  | e :: t, id => if e.1 = id then some e.2 else fragGet t id

/-- JS object update: an existing key keeps its position, a new key is
appended at the end of the insertion order. -/
def fragSet : FragMap → String → FragmentInfo → FragMap
  | [], id, info => [(id, info)]
  | e :: t, id, info =>
    if e.1 = id then (id, info) :: t else e :: fragSet t id info

/-- JS delete of an object key. -/
def fragDel : FragMap → String → FragMap
  | [], _ => []
  | e :: t, id => if e.1 = id then fragDel t id else e :: fragDel t id

/-- JS sparse-array assignment fragments[index] = chunk: indices beyond the
current length are filled with holes. -/
def setSlot (l : List (Option String)) (i : Nat) (v : String) :
    List (Option String) :=
  if i < l.length then l.set i (some v)
  else l ++ List.replicate (i - l.length) none ++ [some v]

/-- JS fragments.join on a sparse array: holes render as the empty
string. -/
def joinFragments (l : List (Option String)) : String :=
  l.foldl (fun acc o => acc ++ o.getD "") ""

/-- Result of one printByFragments dispatch: the updated mapping and, when
count reached total, the joined html payload of the job handed to
PRINT_RUNNER. -/
structure FragStep where
  map : FragMap
  completed : Option String
deriving DecidableEq, Repr

/-- socket.on printByFragments of initServeEvent (src/main.js
lines 1611-1647): fetch or create the entry for id (total taken from the
creating fragment), store the chunk at its index, increment count
unconditionally, stamp the update time; when count equals total, delete the
entry and hand the joined fragments to the print queue. -/
def addFragment (now : Nat) (m : FragMap) (id : String)
    (total index : Nat) (htmlFragment : String) : FragStep :=
  let info0 := (fragGet m id).getD
    { total := total, fragments := [], count := 0, updateTime := 0 }
  let info : FragmentInfo :=
    { total := info0.total
      fragments := setSlot info0.fragments index htmlFragment
      count := info0.count + 1
      updateTime := now }
  if info.count = info.total then
    { map := fragDel m id, completed := some (joinFragments info.fragments) }
  else
    { map := fragSet m id info, completed := none }

/-- Default sweep check interval of generateWatchTask (src/main.js
line 1170): 5 minutes in milliseconds. -/
def checkIntervalMs : Nat := 5 * 60 * 1000

/-- Default fragment expiry of generateWatchTask (src/main.js line 1171):
10 minutes in milliseconds. -/
def expireMs : Nat := 10 * 60 * 1000

/-- Result of one sweep tick: the surviving mapping, whether the timeout is
re-armed, and the list of events emitted toward callers during the tick
(none in the source). -/
structure SweepResult where
  map : FragMap
  rearm : Bool
  emitted : List String
deriving DecidableEq, Repr

/-- clearFragmentsWhichIsExpired of generateWatchTask (src/main.js
lines 1188-1205) at the default configuration used by watchTaskInstance
(line 1002): every entry strictly older than the expiry window is deleted
(JS number subtraction of a future timestamp is negative and fails the
comparison just as truncated Nat subtraction does), then the timeout
re-arms exactly when entries remain; no socket event is emitted. -/
def sweepTick (now : Nat) (m : FragMap) : SweepResult :=
  let m2 := m.filter (fun e => ¬ (now - e.2.updateTime > expireMs))
  { map := m2, rearm := m2.length ≠ 0, emitted := [] }

/-- global.PRINT_RUNNER_DONE: task id to done callback. The callback itself
is opaque; only presence matters, so the value is a tag. -/
abbrev DoneMap := List (String × Nat)

/-- Lookup in the done map. -/
def doneGet (m : DoneMap) (id : String) : Option Nat :=
  match m.find? (fun e => e.1 == id) with
  | some e => some e.2
  | none => none

/-- JS delete of a done-map key. -/
def doneDel (m : DoneMap) (id : String) : DoneMap :=
  m.filter (fun e => e.1 ≠ id)

/-- Outcome of running one terminal-path epilogue against the done map:
either the resulting map together with whether the done callback was
invoked, or a thrown TypeError (calling undefined). -/
inductive DoneOutcome where
  | ok (m : DoneMap) (invoked : Bool)
  | typeError
deriving DecidableEq, Repr

/-- The unguarded terminal epilogue used on the printer-missing,
printer-error, pdf, url_pdf and blob_pdf paths (src/unnamed/part_000
lines 748-755, 769-775, 888-895, 941-948, 1017-1025):
PRINT_RUNNER_DONE[taskId]() is called without a guard — when the id is
absent this evaluates undefined as a function and throws — and then the
property is deleted. -/
def doneEpilogueStrict (m : DoneMap) (taskId : String) : DoneOutcome :=
  match doneGet m taskId with
  | some _ => DoneOutcome.ok (doneDel m taskId) true
  | none => DoneOutcome.typeError

/-- The html print-callback epilogue (src/unnamed/part_000 lines 1103-1108
and the earlier copy at lines 345-353): the invocation is guarded, so an
absent id is a no-op; but the following statement applies the JS delete
operator to the value of the guarded conjunction rather than to the
property reference, which deletes nothing — the map is returned
unchanged. -/
def doneEpilogueHtml (m : DoneMap) (taskId : String) : DoneOutcome :=
  match doneGet m taskId with
  | some _ => DoneOutcome.ok m true
  | none => DoneOutcome.ok m false

/-- Observable queue events: the backend is invoked for job k; job k's
terminal done callback fires. -/
inductive QueueEvent where
  | invoke (k : Nat)
  | done (k : Nat)
deriving DecidableEq, Repr

/-- Modelled from the spec: the PRINT_RUNNER execution queue
(new TaskRunner with concurrency 1, src/main.js line 211) is provided by
the external concurrent-tasks package, which is not part of this
repository. Per spec section 4.5 and section 5, submit appends to a strict
single-slot FIFO queue, the backend is invoked for at most one job at a
time, and each running job holds the slot until its done callback fires.
State: the FIFO list of pending jobs and the optional running job. -/
structure Runner where
  pending : List Nat
  running : Option Nat
deriving DecidableEq, Repr

/-- Modelled from the spec: PRINT_RUNNER.add — with the slot free the task
starts at once (the backend is invoked), otherwise the job is appended to
the FIFO queue. -/
def runnerAdd (r : Runner) (j : Nat) : Runner × List QueueEvent :=
  match r.running with
  | none => ({ pending := r.pending, running := some j }, [QueueEvent.invoke j])
  | some _ => ({ r with pending := r.pending ++ [j] }, [])

/-- Modelled from the spec: the done callback of the running job fires;
the slot frees and the next queued job, if any, is invoked. A done for a
job that is not running is ignored. -/
def runnerDone (r : Runner) (j : Nat) : Runner × List QueueEvent :=
  if r.running = some j then
    match r.pending with
    | [] => ({ pending := [], running := none }, [QueueEvent.done j])
    | next :: rest =>
      ({ pending := rest, running := some next },
        [QueueEvent.done j, QueueEvent.invoke next])
  else (r, [])

/-- Submit a list of jobs back-to-back, collecting emitted events. -/
def addAll (r : Runner) : List Nat → Runner × List QueueEvent
  | [] => (r, [])
  | j :: js =>
    let s1 := runnerAdd r j
    let s2 := addAll s1.1 js
    (s2.1, s1.2 ++ s2.2)

/-- Let every running job complete in turn until the queue is idle; fuel
bounds the number of completions. -/
def drain : Nat → Runner → List QueueEvent
  | 0, _ => []
  | fuel + 1, r =>
    match r.running with
    | none => []
    | some j =>
      let s := runnerDone r j
      s.2 ++ drain fuel s.1

/-- The full event trace of submitting jobs 0..n-1 back-to-back and letting
each complete. -/
def runnerTrace (n : Nat) : List QueueEvent :=
  let s := addAll { pending := [], running := none } (List.range n)
  s.2 ++ drain (n + 1) s.1

/-- The interleaving the spec demands: invoke k directly followed by done k,
in submission order. -/
def closedTrace (n : Nat) : List QueueEvent :=
  (List.range n).flatMap (fun k => [QueueEvent.invoke k, QueueEvent.done k])

theorem addAll_running (p : List Nat) (j : Nat) (l : List Nat) :
    addAll { pending := p, running := some j } l =
      ({ pending := p ++ l, running := some j }, []) := by
  induction l generalizing p with
  | nil => simp [addAll]
  | cons h t ih =>
    simp [addAll, runnerAdd, ih]

theorem drain_idle (fuel : Nat) (p : List Nat) :
    drain fuel { pending := p, running := none } = [] := by
  cases fuel with
  | zero => simp [drain]
  | succ f => simp [drain]

theorem drain_closed (l : List Nat) (j : Nat) (fuel : Nat)
    (hf : l.length + 1 ≤ fuel) :
    drain fuel { pending := l, running := some j } =
      QueueEvent.done j ::
        l.flatMap (fun k => [QueueEvent.invoke k, QueueEvent.done k]) := by
  induction l generalizing j fuel with
  | nil =>
    match fuel, hf with
    | f + 1, _ => simp [drain, runnerDone, drain_idle]
  | cons h t ih =>
    match fuel, hf with
    | f + 1, hf =>
      have hf2 : t.length + 1 ≤ f := by
        simpa [Nat.succ_le_succ_iff] using hf
      simp [drain, runnerDone, ih h f hf2]

theorem runnerTrace_eq_closedTrace (n : Nat) :
    runnerTrace n = closedTrace n := by
  cases n with
  | zero => simp [runnerTrace, addAll, drain, closedTrace]
  | succ m =>
    have hrange : List.range (m + 1) = 0 :: (List.range m).map (· + 1) :=
      List.range_succ_eq_map m
    rw [runnerTrace, hrange]
    simp only [addAll, runnerAdd, addAll_running]
    have hlen : (((List.range m).map (· + 1)).length + 1 ≤ m + 1) := by simp
    rw [drain_closed _ _ _ (by simpa using hlen)]
    simp [closedTrace, hrange]

theorem closedTrace_succ (n : Nat) :
    closedTrace (n + 1) =
      closedTrace n ++ [QueueEvent.invoke n, QueueEvent.done n] := by
  simp [closedTrace, List.range_succ]

theorem closedTrace_length (n : Nat) : (closedTrace n).length = 2 * n := by
  induction n with
  | zero => simp [closedTrace]
  | succ m ih =>
    rw [closedTrace_succ]
    simp [ih]
    ring

theorem closedTrace_getElem_invoke (n m : Nat) (h : m < n) :
    (closedTrace n).get? (2 * m) = some (QueueEvent.invoke m) := by
  induction n with
  | zero => omega
  | succ p ih =>
    rw [closedTrace_succ]
    rcases Nat.lt_succ_iff_lt_or_eq.mp h with h2 | h2
    · rw [List.get?_append]
      · exact ih h2
      · rw [closedTrace_length]; omega
    · subst h2
      rw [List.get?_append_right (by rw [closedTrace_length])]
      rw [closedTrace_length]
      simp

theorem closedTrace_getElem_done (n m : Nat) (h : m < n) :
    (closedTrace n).get? (2 * m + 1) = some (QueueEvent.done m) := by
  induction n with
  | zero => omega
  | succ p ih =>
    rw [closedTrace_succ]
    rcases Nat.lt_succ_iff_lt_or_eq.mp h with h2 | h2
    · rw [List.get?_append]
      · exact ih h2
      · rw [closedTrace_length]; omega
    · subst h2
      rw [List.get?_append_right (by rw [closedTrace_length]; omega)]
      rw [closedTrace_length]
      have : 2 * m + 1 - 2 * m = 1 := by omega
      rw [this]
      simp

theorem closedTrace_count_invoke (n m : Nat) :
    (closedTrace n).count (QueueEvent.invoke m) = if m < n then 1 else 0 := by
  induction n with
  | zero => simp [closedTrace]
  | succ p ih =>
    rw [closedTrace_succ, List.count_append, ih]
    by_cases h : m < p
    · have h2 : m < p + 1 := by omega
      have h3 : m ≠ p := by omega
      simp [h, h2, List.count_cons, h3]
    · by_cases h4 : m = p
      · subst h4
        simp [h, List.count_cons]
      · have h5 : ¬ m < p + 1 := by omega
        simp [h, h5, List.count_cons, h4]

theorem fragGet_fragSet_self (m : FragMap) (id : String)
    (info : FragmentInfo) : fragGet (fragSet m id info) id = some info := by
  induction m with
  | nil => simp [fragSet, fragGet]
  | cons e t ih =>
    by_cases he : e.1 = id <;> simp [fragSet, fragGet, he, ih]

theorem fragGet_fragDel_self (m : FragMap) (id : String) :
    fragGet (fragDel m id) id = none := by
  induction m with
  | nil => simp [fragDel, fragGet]
  | cons e t ih =>
    by_cases he : e.1 = id <;> simp [fragDel, fragGet, he, ih]

theorem closedTrace_count_done (n m : Nat) :
    (closedTrace n).count (QueueEvent.done m) = if m < n then 1 else 0 := by
  induction n with
  | zero => simp [closedTrace]
  | succ p ih =>
    rw [closedTrace_succ, List.count_append, ih]
    by_cases h : m < p
    · have h2 : m < p + 1 := by omega
      have h3 : m ≠ p := by omega
      simp [h, h2, List.count_cons, h3]
    · by_cases h4 : m = p
      · subst h4
        simp [h, List.count_cons]
      · have h5 : ¬ m < p + 1 := by omega
        simp [h, h5, List.count_cons, h4]

/-- C1: in the execution queue (PRINT_RUNNER, concurrency 1), for n jobs
submitted back-to-back, the backend is invoked for job k+1 only after job
k's terminal done callback has been invoked, and jobs complete in
submission (FIFO) order: the trace of queue events places the unique done
of job k at position 2k+1 and the unique backend invocation of job k+1 at
position 2k+2, strictly later; since this holds for every k, dones occur
in submission order. -/
theorem print_runner_fifo_serialized (n k : Nat) (h : k + 1 < n) :
    (runnerTrace n).get? (2 * k + 1) = some (QueueEvent.done k) ∧
    (runnerTrace n).get? (2 * (k + 1)) = some (QueueEvent.invoke (k + 1)) ∧
    (runnerTrace n).count (QueueEvent.invoke (k + 1)) = 1 ∧
    (runnerTrace n).count (QueueEvent.done k) = 1 := by
  rw [runnerTrace_eq_closedTrace]
  refine ⟨closedTrace_getElem_done n k (by omega),
    closedTrace_getElem_invoke n (k + 1) h, ?_, ?_⟩
  · rw [closedTrace_count_invoke]
    simp [h]
  · rw [closedTrace_count_done]
    simp [show k < n by omega]

/-- Witness for C1 at n = 3 jobs, k = 1. -/
theorem print_runner_fifo_serialized_witness :
    (runnerTrace 3).get? (2 * 1 + 1) = some (QueueEvent.done 1) ∧
    (runnerTrace 3).get? (2 * (1 + 1)) = some (QueueEvent.invoke (1 + 1)) ∧
    (runnerTrace 3).count (QueueEvent.invoke (1 + 1)) = 1 ∧
    (runnerTrace 3).count (QueueEvent.done 1) = 1 :=
  print_runner_fifo_serialized 3 1 (by decide)

/-- C2, counterexample: a job whose target resolves through the printer
directory cache to a record owned by a remote node, while no transit
connection is active, is nevertheless enqueued for local execution when
the target string is shorter than 15 characters — the error branch is
guarded by the length heuristic, so the claim as stated fails. -/
theorem serve_remote_cache_hit_executes_locally :
    queryPrinterCache [("[a] HP", (PrinterInfo.mk "REMOTE0123456789" "HP"))] "[a] HP" =
      some (PrinterInfo.mk "REMOTE0123456789" "HP") ∧
    ("REMOTE0123456789" : String) ≠ "LOCAL00000000000" ∧
    serveNews "LOCAL00000000000" "S1" "HP" false
      [("[a] HP", (PrinterInfo.mk "REMOTE0123456789" "HP"))]
      [] (ServeJob.mk "[a] HP" none) =
      NewsDecision.execLocal "[a] HP" "[a] HP" := by
  decide

/-- C2, amended: when additionally the target is at least 15 characters
long, differs from the originating connection's id and from the local
identity, a cache hit with no transit connection yields the
remote-unreachable error and the job is never enqueued locally. -/
theorem serve_remote_no_transit_rejected
    (localId socketId defaultPrinter : String) (cache : PrinterCache)
    (peerIds : List String) (data : ServeJob)
    (hlen : 15 ≤ data.printer.length)
    (hsock : data.printer ≠ socketId)
    (hloc : data.printer ≠ localId)
    (hcache : (queryPrinterCache cache data.printer).isSome = true) :
    serveNews localId socketId defaultPrinter false cache peerIds data =
      NewsDecision.rejectRemoteNoTransit := by
  have hne : data.printer ≠ "" := by
    intro h
    rw [h] at hlen
    simp at hlen
  unfold serveNews
  rw [if_neg (fun hc => hloc hc.2), if_pos ⟨hne, hsock, hne, hlen⟩,
    if_pos ⟨hcache, rfl⟩]

/-- Witness for C2 amended. -/
theorem serve_remote_no_transit_rejected_witness :
    serveNews "LOCAL00000000000" "S1" "" false
      [("[a] HP", (PrinterInfo.mk "REMOTE0123456789" "HP"))]
      [] (ServeJob.mk "REMOTE0123456789" none) =
      NewsDecision.rejectRemoteNoTransit :=
  serve_remote_no_transit_rejected "LOCAL00000000000" "S1" ""
    [("[a] HP", (PrinterInfo.mk "REMOTE0123456789" "HP"))]
    [] (ServeJob.mk "REMOTE0123456789" none)
    (by decide) (by decide) (by decide) (by decide)

/-- C3, counterexample: a job whose target is a node id of length at least
15 belonging to a client directly connected to the local listener is not
forwarded to that peer when the target equals the originating connection's
own socket id — it is executed locally instead, even with a relay
connection active. -/
theorem serve_self_target_not_forwarded :
    ("AAAAAAAAAAAAAAAA" : String) ∈ ["AAAAAAAAAAAAAAAA"] ∧
    15 ≤ ("AAAAAAAAAAAAAAAA" : String).length ∧
    serveNews "LOCAL00000000000" "AAAAAAAAAAAAAAAA" "" true []
      ["AAAAAAAAAAAAAAAA"] (ServeJob.mk "AAAAAAAAAAAAAAAA" none) =
      NewsDecision.execLocal "AAAAAAAAAAAAAAAA" "AAAAAAAAAAAAAAAA" := by
  decide

/-- C3, amended: when additionally the target differs from the originating
socket id and from the local identity, and the cache-hit-without-transit
rejection does not apply (in particular whenever a relay connection is
simultaneously active), a directly connected peer receives the job
unmodified; and the relay-forward branch is only ever taken when no direct
peer socket exists for the target. -/
theorem serve_direct_peer_precedence :
    (∀ (localId socketId defaultPrinter : String) (transitConnected : Bool)
        (cache : PrinterCache) (peerIds : List String) (data : ServeJob),
      15 ≤ data.printer.length →
      data.printer ≠ socketId →
      data.printer ≠ localId →
      data.printer ∈ peerIds →
      ((queryPrinterCache cache data.printer).isSome = true →
        transitConnected = true) →
      serveNews localId socketId defaultPrinter transitConnected cache
        peerIds data = NewsDecision.forwardPeer data) ∧
    (∀ (localId socketId defaultPrinter : String) (transitConnected : Bool)
        (cache : PrinterCache) (peerIds : List String) (data : ServeJob)
        (fd : ForwardPayload),
      serveNews localId socketId defaultPrinter transitConnected cache
        peerIds data = NewsDecision.forwardTransit fd →
      data.printer ∉ peerIds) := by
  constructor
  · intro localId socketId defaultPrinter transit cache peers data
      hlen hsock hloc hpeer hc
    have hne : data.printer ≠ "" := by
      intro h
      rw [h] at hlen
      exact absurd hlen (by decide)
    have hrej : ¬((queryPrinterCache cache data.printer).isSome = true ∧
        transit = false) := by
      rintro ⟨hsome, hfalse⟩
      rw [hc hsome] at hfalse
      exact Bool.noConfusion hfalse
    unfold serveNews
    rw [if_neg (fun hcnd => hloc hcnd.2), if_pos ⟨hne, hsock, hne, hlen⟩,
      if_neg hrej, if_pos hpeer]
  · intro localId socketId defaultPrinter transit cache peers data fd h hmem
    unfold serveNews at h
    by_cases h1 : (data.printer ≠ "" ∧ 15 ≤ data.printer.length) ∧
        data.printer = localId
    · rw [if_pos h1] at h
      exact NewsDecision.noConfusion h
    · rw [if_neg h1] at h
      by_cases h2 : data.printer ≠ "" ∧ data.printer ≠ socketId ∧
          (data.printer ≠ "" ∧ 15 ≤ data.printer.length)
      · rw [if_pos h2] at h
        by_cases h3 : (queryPrinterCache cache data.printer).isSome = true ∧
            transit = false
        · rw [if_pos h3] at h
          exact NewsDecision.noConfusion h
        · rw [if_neg h3, if_pos hmem] at h
          exact NewsDecision.noConfusion h
      · rw [if_neg h2] at h
        exact NewsDecision.noConfusion h

/-- Witness for C3 amended: direct peer wins while the relay is active. -/
theorem serve_direct_peer_precedence_witness :
    serveNews "LOCAL00000000000" "S1" "" true
      [("[a] HP", (PrinterInfo.mk "PEER000000000000" "HP"))]
      ["PEER000000000000"] (ServeJob.mk "PEER000000000000" none) =
      NewsDecision.forwardPeer (ServeJob.mk "PEER000000000000" none) :=
  serve_direct_peer_precedence.1 "LOCAL00000000000" "S1" "" true
    [("[a] HP", (PrinterInfo.mk "PEER000000000000" "HP"))]
    ["PEER000000000000"] (ServeJob.mk "PEER000000000000" none)
    (by decide) (by decide) (by decide) (by decide) (fun _ => rfl)

/-- C5, counterexample: with a provisional identity shorter than 15
characters, a job targeting exactly LOCAL_CLIENT_ID falls through the
length heuristic and is executed with the target string itself handed to
the print window, not the origin-stripped configured default printer. -/
theorem serve_short_local_id_ignores_default :
    stripOriginTag "[192.168.0.9] HP LaserJet" = "HP LaserJet" ∧
    serveNews "local-1" "S1" "[192.168.0.9] HP LaserJet" false [] []
      (ServeJob.mk "local-1" none) =
      NewsDecision.execLocal "local-1" "local-1" ∧
    ("local-1" : String) ≠ "HP LaserJet" := by
  decide

/-- C5, amended: provided the node identity is at least 15 characters
long, a job targeting LOCAL_CLIENT_ID is executed with the origin-stripped
configured default printer handed to the print window, regardless of the
printer directory cache contents, while the job's own printer field is
left unmodified for reply correlation. -/
theorem serve_local_target_uses_default
    (localId socketId defaultPrinter : String) (transitConnected : Bool)
    (cache : PrinterCache) (peerIds : List String) (data : ServeJob)
    (hlen : 15 ≤ localId.length) (heq : data.printer = localId) :
    serveNews localId socketId defaultPrinter transitConnected cache
      peerIds data =
      NewsDecision.execLocal (stripOriginTag defaultPrinter) data.printer := by
  have hlen2 : 15 ≤ data.printer.length := by
    rw [heq]
    exact hlen
  have hne : data.printer ≠ "" := by
    intro h
    rw [h] at hlen2
    exact absurd hlen2 (by decide)
  unfold serveNews
  rw [if_pos ⟨⟨hne, hlen2⟩, heq⟩]

/-- Witness for C5 amended, with a cache entry that names a conflicting
printer for the same identity. -/
theorem serve_local_target_uses_default_witness :
    serveNews "LOCAL00000000000" "S1" "[10.0.0.1] HP" true
      [("LOCAL00000000000", (PrinterInfo.mk "OTHER00000000000" "Evil"))]
      [] (ServeJob.mk "LOCAL00000000000" (some "r1")) =
      NewsDecision.execLocal (stripOriginTag "[10.0.0.1] HP")
        "LOCAL00000000000" :=
  serve_local_target_uses_default "LOCAL00000000000" "S1" "[10.0.0.1] HP"
    true [("LOCAL00000000000", (PrinterInfo.mk "OTHER00000000000" "Evil"))]
    [] (ServeJob.mk "LOCAL00000000000" (some "r1")) (by decide) rfl

/-- C6, counterexample: the relay printerList handler overwrites an
already-adopted canonical (non-provisional) identity with a different
value whenever a broadcast entry's ip matches the local ip, so the adopted
identity can regress after adoption. -/
theorem printer_list_overwrites_canonical_id :
    strStartsWith "CANON00000000000" "local-" = false ∧
    printerListUpdate "10.0.0.2" "CANON00000000000"
      [BroadcastItem.mk "10.0.0.2" "NEWID00000000000"] =
      "NEWID00000000000" ∧
    ("NEWID00000000000" : String) ≠ "CANON00000000000" := by
  decide

/-- C6, amended: the server-connect path alone has the claimed guard — it
replaces LOCAL_CLIENT_ID with the new socket id exactly when the current
value is truthy and still carries the provisional local- placeholder, and
leaves any non-provisional value untouched. -/
theorem connect_adopt_only_provisional :
    (∀ current socketId : String,
      strStartsWith current "local-" = false →
      connectAdopt current socketId = current) ∧
    (∀ current socketId : String, current ≠ "" →
      strStartsWith current "local-" = true →
      connectAdopt current socketId = socketId) := by
  constructor
  · intro current socketId h
    unfold connectAdopt
    rw [if_neg]
    rintro ⟨-, h2⟩
    rw [h] at h2
    exact Bool.noConfusion h2
  · intro current socketId hne h
    unfold connectAdopt
    rw [if_pos ⟨hne, h⟩]

/-- Witness for C6 amended: a canonical value survives a connect. -/
theorem connect_adopt_only_provisional_witness :
    connectAdopt "CANON00000000000" "SOCK000000000000" =
      "CANON00000000000" :=
  connect_adopt_only_provisional.1 "CANON00000000000" "SOCK000000000000"
    (by decide)

/-- C9, counterexample: a job that first crosses the hop toward the relay
with no replyId is forwarded with no replyId — nothing generates one at
the point the job first needs cross-hop correlation (the only generation
site sits inside a branch that already requires a replyId). -/
theorem serve_forward_generates_no_reply_id :
    serveNews "LOCAL00000000000" "S1" "" true [] []
      (ServeJob.mk "PEER000000000000" none) =
      NewsDecision.forwardTransit
        (ForwardPayload.mk "PEER000000000000" "PEER000000000000" none) := by
  decide

/-- C9, amended: an existing replyId is preserved unchanged by every
forwarding hop — the server-side relay forward, the client-side relay
forward, and the print-new-test relay forward all carry the inbound job's
replyId into the forwarded payload; but no replyId is generated when
absent. -/
theorem reply_id_preserved_on_forward :
    (∀ (localId socketId defaultPrinter : String) (transitConnected : Bool)
        (cache : PrinterCache) (peerIds : List String) (data : ServeJob)
        (fd : ForwardPayload),
      serveNews localId socketId defaultPrinter transitConnected cache
        peerIds data = NewsDecision.forwardTransit fd →
      fd.replyId = data.replyId) ∧
    (∀ (localId clientSockId : String) (cache : PrinterCache)
        (data : ClientJob) (fd : ForwardPayload),
      clientNews localId clientSockId cache data =
        NewsDecision.forwardTransit fd →
      fd.replyId = data.replyId) ∧
    (∀ (freshId : String) (data : ClientJob) (info : PrinterInfo)
        (r : String),
      data.replyId = some r →
      (printNewTestForwardData freshId data info).replyId = some r) := by
  refine ⟨?_, ?_, ?_⟩
  · intro localId socketId defaultPrinter transit cache peers data fd h
    simp only [serveNews] at h
    repeat' split at h
    all_goals
      first
        | exact NewsDecision.noConfusion h
        | (injection h with h2; subst h2; rfl)
  · intro localId clientSockId cache data fd h
    simp only [clientNews] at h
    repeat' split at h
    all_goals
      first
        | exact NewsDecision.noConfusion h
        | (injection h with h2; subst h2; rfl)
  · intro freshId data info r hr
    simp [printNewTestForwardData, hr]

/-- Witness for C9 amended: a present replyId rides the server-side
forward unchanged. -/
theorem reply_id_preserved_on_forward_witness :
    (ForwardPayload.mk "PEER000000000000" "PEER000000000000"
      (some "r1")).replyId =
      (ServeJob.mk "PEER000000000000" (some "r1")).replyId :=
  reply_id_preserved_on_forward.1 "LOCAL00000000000" "S1" "" true [] []
    (ServeJob.mk "PEER000000000000" (some "r1"))
    (ForwardPayload.mk "PEER000000000000" "PEER000000000000" (some "r1"))
    (by decide)

/-- C4: evaluation at the failing input. On the html terminal path the
done-map entry survives the callback — the source applies the JS delete
operator to the value of the guarded conjunction rather than to the
property reference, so nothing is removed, contradicting the adjacent
delete-task comment — while on the printer-missing, printer-error, pdf,
url_pdf and blob_pdf paths a second completion for an already-removed id
calls undefined and throws a TypeError rather than being a no-op. -/
theorem html_done_entry_not_removed :
    doneEpilogueHtml [("t1", 0)] "t1" = DoneOutcome.ok [("t1", 0)] true ∧
    doneGet [("t1", 0)] "t1" = some 0 ∧
    doneEpilogueStrict [] "t1" = DoneOutcome.typeError := by
  decide

/-- C7: for any submission id unknown to the mapping, fragments with total
3 arriving in index order 0, 2, 1 complete exactly on the third arrival,
the payload is the concatenation in index order (not arrival order), and
the entry is deleted from the mapping the instant count reaches total. -/
theorem fragments_out_of_order_assembled (m : FragMap) (id : String)
    (a b c : String) (t1 t2 t3 : Nat) (h : fragGet m id = none) :
    (addFragment t1 m id 3 0 a).completed = none ∧
    (addFragment t2 (addFragment t1 m id 3 0 a).map id 3 2 c).completed =
      none ∧
    (addFragment t3 (addFragment t2 (addFragment t1 m id 3 0 a).map
      id 3 2 c).map id 3 1 b).completed = some (a ++ b ++ c) ∧
    fragGet (addFragment t3 (addFragment t2 (addFragment t1 m id 3 0 a).map
      id 3 2 c).map id 3 1 b).map id = none := by
  have s1 : addFragment t1 m id 3 0 a =
      { map := fragSet m id (FragmentInfo.mk 3 [some a] 1 t1)
        completed := none } := by
    simp [addFragment, h, setSlot]
  have s2 : addFragment t2 (addFragment t1 m id 3 0 a).map id 3 2 c =
      { map := fragSet (fragSet m id (FragmentInfo.mk 3 [some a] 1 t1)) id
          (FragmentInfo.mk 3 [some a, none, some c] 2 t2)
        completed := none } := by
    rw [s1]
    simp [addFragment, fragGet_fragSet_self, setSlot, List.replicate]
  have s3 : addFragment t3 (addFragment t2 (addFragment t1 m id 3 0 a).map
      id 3 2 c).map id 3 1 b =
      { map := fragDel (fragSet (fragSet m id
          (FragmentInfo.mk 3 [some a] 1 t1)) id
          (FragmentInfo.mk 3 [some a, none, some c] 2 t2)) id
        completed := some (a ++ b ++ c) } := by
    rw [s2]
    simp [addFragment, fragGet_fragSet_self, setSlot, joinFragments,
      String.append_assoc]
  refine ⟨by rw [s1], by rw [s2], by rw [s3], ?_⟩
  rw [s3]
  exact fragGet_fragDel_self _ id

/-- Witness for C7 at a concrete map and fragments. -/
theorem fragments_out_of_order_assembled_witness :
    (addFragment 10 [] "j" 3 0 "x").completed = none ∧
    (addFragment 11 (addFragment 10 [] "j" 3 0 "x").map "j" 3 2 "z").completed
      = none ∧
    (addFragment 12 (addFragment 11 (addFragment 10 [] "j" 3 0 "x").map
      "j" 3 2 "z").map "j" 3 1 "y").completed = some ("x" ++ "y" ++ "z") ∧
    fragGet (addFragment 12 (addFragment 11
      (addFragment 10 [] "j" 3 0 "x").map "j" 3 2 "z").map "j" 3 1 "y").map
      "j" = none :=
  fragments_out_of_order_assembled [] "j" "x" "y" "z" 10 11 12 (by decide)

/-- C8: one sweep tick deletes exactly the fragment sets whose last update
is older than the 10-minute expiry window (which exceeds the 5-minute
check interval), keeps the others, re-arms exactly when sets remain and
stops when the mapping is empty, and emits no event toward any caller. -/
theorem fragment_sweep_contract (now : Nat) (m : FragMap) :
    (∀ e ∈ m, now - e.2.updateTime > expireMs →
      e ∉ (sweepTick now m).map) ∧
    (∀ e ∈ m, ¬(now - e.2.updateTime > expireMs) →
      e ∈ (sweepTick now m).map) ∧
    ((sweepTick now m).rearm = true ↔ (sweepTick now m).map ≠ []) ∧
    (sweepTick now m).emitted = [] ∧
    checkIntervalMs < expireMs := by
  refine ⟨?_, ?_, ?_, rfl, by decide⟩
  · intro e he hexp hmem
    rw [sweepTick] at hmem
    simp only [List.mem_filter, decide_not, Bool.not_eq_eq_eq_not,
      Bool.not_true, decide_eq_false_iff_not, not_not] at hmem
    omega
  · intro e he hkeep
    rw [sweepTick]
    simp only [List.mem_filter, decide_not, Bool.not_eq_eq_eq_not,
      Bool.not_true, decide_eq_false_iff_not, not_not]
    exact ⟨he, by omega⟩
  · rw [sweepTick]
    simp only [ne_eq, decide_eq_true_eq]
    exact not_congr List.length_eq_zero

/-- Witness for C8: an expired set is dropped while a fresh one stays. -/
theorem fragment_sweep_contract_witness :
    ("old", FragmentInfo.mk 3 [] 1 0) ∉
      (sweepTick 700000 [("old", FragmentInfo.mk 3 [] 1 0),
        ("new", FragmentInfo.mk 3 [] 1 650000)]).map ∧
    ("new", FragmentInfo.mk 3 [] 1 650000) ∈
      (sweepTick 700000 [("old", FragmentInfo.mk 3 [] 1 0),
        ("new", FragmentInfo.mk 3 [] 1 650000)]).map :=
  And.intro
    ((fragment_sweep_contract 700000 [("old", FragmentInfo.mk 3 [] 1 0),
      ("new", FragmentInfo.mk 3 [] 1 650000)]).1
      ("old", FragmentInfo.mk 3 [] 1 0) (by decide) (by decide))
    ((fragment_sweep_contract 700000 [("old", FragmentInfo.mk 3 [] 1 0),
      ("new", FragmentInfo.mk 3 [] 1 650000)]).2.1
      ("new", FragmentInfo.mk 3 [] 1 650000) (by decide) (by decide))

/-- C10: the arrival counter is incremented on every fragment, including
one whose index slot is already filled, so completion is decided by the
number of arrivals rather than by the number of distinct filled indexes;
a run with a duplicate index completes with an unfilled slot, which the
join renders as the empty string. -/
theorem fragment_count_by_arrivals (now : Nat) (m : FragMap) (id : String)
    (total index : Nat) (chunk : String) (info : FragmentInfo)
    (a b c : String) (t1 t2 t3 : Nat) (h : fragGet m id = some info) :
    ((addFragment now m id total index chunk).completed.isSome = true ↔
      info.count + 1 = info.total) ∧
    setSlot (setSlot (setSlot [] 0 a) 0 b) 2 c = [some b, none, some c] ∧
    joinFragments [some b, none, some c] = b ++ c ∧
    (addFragment t3 (addFragment t2 (addFragment t1 [] id 3 0 a).map
      id 3 0 b).map id 3 2 c).completed = some (b ++ c) := by
  refine ⟨?_, by simp [setSlot, List.replicate], ?_, ?_⟩
  · by_cases hq : info.count + 1 = info.total
    · simp [addFragment, h, hq]
    · simp [addFragment, h, hq]
  · simp [joinFragments]
  · have u1 : addFragment t1 [] id 3 0 a =
        { map := [(id, FragmentInfo.mk 3 [some a] 1 t1)]
          completed := none } := by
      simp [addFragment, fragGet, fragSet, setSlot]
    have u2 : addFragment t2 (addFragment t1 [] id 3 0 a).map id 3 0 b =
        { map := [(id, FragmentInfo.mk 3 [some b] 2 t2)]
          completed := none } := by
      rw [u1]
      simp [addFragment, fragGet, fragSet, setSlot]
    have u3 : addFragment t3 (addFragment t2 (addFragment t1 [] id 3 0 a).map
        id 3 0 b).map id 3 2 c =
        { map := []
          completed := some (b ++ c) } := by
      rw [u2]
      simp [addFragment, fragGet, fragDel, setSlot, joinFragments,
        List.replicate]
    rw [u3]

/-- Witness for C10 at a concrete mapping and fragments. -/
theorem fragment_count_by_arrivals_witness :
    ((addFragment 9 [("x", FragmentInfo.mk 3 [] 1 0)] "x" 9 0
      "z").completed.isSome = true ↔ 1 + 1 = 3) ∧
    setSlot (setSlot (setSlot [] 0 "p") 0 "q") 2 "r" =
      [some "q", none, some "r"] ∧
    joinFragments [some "q", none, some "r"] = "q" ++ "r" ∧
    (addFragment 12 (addFragment 11 (addFragment 10 [] "x" 3 0 "p").map
      "x" 3 0 "q").map "x" 3 2 "r").completed = some ("q" ++ "r") :=
  fragment_count_by_arrivals 9 [("x", FragmentInfo.mk 3 [] 1 0)] "x" 9 0
    "z" (FragmentInfo.mk 3 [] 1 0) "p" "q" "r" 10 11 12 (by decide)

end HiPrint
